import Mathlib

/-!
# Verification of the call-report panel builders (Banking-Lab)

Shallow embedding of the two panel-building scripts
`build_full_panel.py` (namespace `FP`) and `build_rc_assets_panel.py`
(namespace `RC`) of the Banking-Lab repository, together with theorems
settling the specification claims about the field resolver, the
category aggregator, the reconciliation checker, the missing-field
tracker and the panel assembler.

Modelling conventions:
* a raw cell or derived numeric value is `Val := Option ℚ`, with `none`
  playing the role of pandas `NaN` ("no value");
* a filing-table row is a total map from column name to `Val`; a column
  that is absent from the file maps every row to `none`, which is exactly
  how `to_num_series` (FP) and `ensure_numeric_cols` (RC) treat absent
  columns;
* a reporting date is a `(year, month, day)` triple compared through the
  numeric key `y*10000 + m*100 + d`, which on calendar dates agrees with
  `pd.Timestamp` ordering;
* file-system and parsing outcomes (missing directory, missing Schedule RC
  file, unreadable file) are modelled as explicit constructors of a
  quarter-input type, and Python exceptions as `Except` values, so that
  exception propagation through the per-quarter drivers is visible.
-/

/-- A cell value: `none` models pandas `NaN` ("no value"). -/
abbrev Val := Option ℚ

/-- A filing-table row: total map from (normalized) column name to value.
An absent column is the all-`none` column. -/
abbrev Row := String → Val

/-- A reporting date. -/
structure Date where
  year : ℕ
  month : ℕ
  day : ℕ
deriving DecidableEq

/-- Numeric key of a date; on calendar dates `key` ordering coincides with
`pd.Timestamp` ordering. -/
def Date.key (x : Date) : ℕ := x.year * 10000 + x.month * 100 + x.day

/-- `is_leq d y m day` embeds `d <= pd.Timestamp(y, m, day)`
(`build_rc_assets_panel.is_leq`; `build_full_panel` writes the comparison
inline). -/
def is_leq (x : Date) (y m day : ℕ) : Prop := x.key ≤ Date.key ⟨y, m, day⟩

/-- `is_geq d y m day` embeds `d >= pd.Timestamp(y, m, day)`
(`build_rc_assets_panel.is_geq`). -/
def is_geq (x : Date) (y m day : ℕ) : Prop := Date.key ⟨y, m, day⟩ ≤ x.key

/-- `between d y1 m1 day1 y2 m2 day2` embeds
`pd.Timestamp(y1,m1,day1) <= d <= pd.Timestamp(y2,m2,day2)`
(`build_rc_assets_panel.between`). -/
def between (x : Date) (y1 m1 day1 y2 m2 day2 : ℕ) : Prop :=
  Date.key ⟨y1, m1, day1⟩ ≤ x.key ∧ x.key ≤ Date.key ⟨y2, m2, day2⟩

/-- `onDate d y m day` embeds the equality test `d == pd.Timestamp(y, m, day)`. -/
def onDate (x : Date) (y m day : ℕ) : Prop := x.key = Date.key ⟨y, m, day⟩

instance (x : Date) (y m day : ℕ) : Decidable (is_leq x y m day) := by
  unfold is_leq; exact inferInstance

instance (x : Date) (y m day : ℕ) : Decidable (is_geq x y m day) := by
  unfold is_geq; exact inferInstance

instance (x : Date) (y1 m1 day1 y2 m2 day2 : ℕ) :
    Decidable (between x y1 m1 day1 y2 m2 day2) := by
  unfold between; exact inferInstance

instance (x : Date) (y m day : ℕ) : Decidable (onDate x y m day) := by
  unfold onDate; exact inferInstance

/-- The all-missing row: every column reads `NaN`. -/
def emptyRow : Row := fun _ => none

/-- Pandas `Series + Series` on two cells: the sum when both are present,
`NaN` as soon as either operand is `NaN`. -/
def nanAdd (a b : Val) : Val :=
  match a, b with
  | some x, some y => some (x + y)
  | _, _ => none

/-- Pandas `DataFrame.sum(axis=1, skipna=True)` over one row of cells:
each `NaN` contributes `0`; the result is always a defined number
(the sum over an all-`NaN` row is `0`, not `NaN`). -/
def sumSkipna (l : List Val) : ℚ := (l.map (fun v => v.getD 0)).sum

/-- `Series.abs()` on one cell value, written as a case split so that it
evaluates by kernel reduction on concrete rationals (it equals `|x|`, see
`ratAbs_eq_abs`). -/
def ratAbs (x : ℚ) : ℚ := if x < 0 then -x else x

/-- Numeric reading of the six-character `MMDDYY` quarter-directory name
produced by `qdir_from_date` (e.g. `2001-03-31 -> "033101"`).  Since all
these names are zero-padded to the same length, lexicographic order on the
names coincides with numeric order on this key. -/
def qdirNum (x : Date) : ℕ := x.month * 10000 + x.day * 100 + x.year % 100

namespace FP

/-! ## build_full_panel.py -/

/-- `to_num_series(df, col)`: the numeric column for `col`; an absent
column is the all-`NaN` column, which the `Row` representation already
provides. -/
def to_num_series (row : Row) (col : String) : Val := row col

/-- Row-wise core of `prefer_rcfd`: start from `a`; replace by `b`
exactly where `a` is `NaN`-or-`0` while `b` is present and non-zero
(`use_b = (out.isna() | (out == 0)) & b.notna() & (b != 0)`). -/
def prefer_core (a b : Val) : Val :=
  if (a = none ∨ a = some 0) ∧ b ≠ none ∧ b ≠ some 0 then b else a

/-- `prefer_rcfd(df, rcfd_col, rcon_col)` applied to one row. -/
def prefer_rcfd (row : Row) (rcfd_col rcon_col : String) : Val :=
  prefer_core (to_num_series row rcfd_col) (to_num_series row rcon_col)

/-- `compute_cash`: noninterest-bearing plus interest-bearing cash, each
resolved and then `fillna(0)`. -/
def compute_cash (row : Row) : ℚ :=
  (prefer_rcfd row "RCFD0081" "RCON0081").getD 0
    + (prefer_rcfd row "RCFD0071" "RCON0071").getD 0

/-- `compute_securities`: HTM (column switch at 2019Q1) + AFS, plus equity
securities from 2018Q1 on; every part `fillna(0)`. -/
def compute_securities (row : Row) (report_date : Date) : ℚ :=
  let htm : ℚ :=
    if is_geq report_date 2019 3 31 then (prefer_rcfd row "RCFDJJ34" "RCONJJ34").getD 0
    else (prefer_rcfd row "RCFD1754" "RCON1754").getD 0
  let afs : ℚ := (prefer_rcfd row "RCFD1773" "RCON1773").getD 0
  if is_geq report_date 2018 3 31 then
    htm + afs + (prefer_rcfd row "RCFDJA22" "RCONJA22").getD 0
  else htm + afs

/-- `compute_ffsrepo`: 1996Q4 uses 0276+0277; 1997Q1-2001Q4 the combined
1350; 2002Q1+ B987+B989; earlier dates fall back to 1350. -/
def compute_ffsrepo (row : Row) (report_date : Date) : ℚ :=
  if onDate report_date 1996 12 31 then
    (prefer_rcfd row "RCFD0276" "RCON0276").getD 0
      + (prefer_rcfd row "RCFD0277" "RCON0277").getD 0
  else if between report_date 1997 3 31 2001 12 31 then
    (prefer_rcfd row "RCFD1350" "RCON1350").getD 0
  else if is_geq report_date 2002 3 31 then
    (prefer_rcfd row "RCFDB987" "RCONB987").getD 0
      + (prefer_rcfd row "RCFDB989" "RCONB989").getD 0
  else
    (prefer_rcfd row "RCFD1350" "RCON1350").getD 0

/-- `compute_loans`: up to 2000Q4 the net figure 2125; from 2001Q1 on
B529 plus held-for-sale 5369. -/
def compute_loans (row : Row) (report_date : Date) : ℚ :=
  if is_leq report_date 2000 12 31 then
    (prefer_rcfd row "RCFD2125" "RCON2125").getD 0
  else
    (prefer_rcfd row "RCFDB529" "RCONB529").getD 0
      + (prefer_rcfd row "RCFD5369" "RCON5369").getD 0

/-- `compute_item9`: acceptances 2155 through 2005Q4; **exactly `0.0`**
(`pd.Series(0.0, index=df.index)`) in the undefined 2006Q1-2009Q1 window;
real-estate ventures 3656 from 2009Q2; `0.0` fallback otherwise. -/
def compute_item9 (row : Row) (report_date : Date) : ℚ :=
  if is_leq report_date 2005 12 31 then
    (prefer_rcfd row "RCFD2155" "RCON2155").getD 0
  else if between report_date 2006 3 31 2009 3 31 then
    0
  else if is_geq report_date 2009 6 30 then
    (prefer_rcfd row "RCFD3656" "RCON3656").getD 0
  else 0

/-- `compute_intangibles`: 2143 through 2000Q4 and again from 2018Q2;
goodwill 3163 + other intangibles 0426 in between (also the fallback). -/
def compute_intangibles (row : Row) (report_date : Date) : ℚ :=
  if is_leq report_date 2000 12 31 then
    (prefer_rcfd row "RCFD2143" "RCON2143").getD 0
  else if between report_date 2001 3 31 2018 3 31 then
    (prefer_rcfd row "RCFD3163" "RCON3163").getD 0
      + (prefer_rcfd row "RCFD0426" "RCON0426").getD 0
  else if is_geq report_date 2018 6 30 then
    (prefer_rcfd row "RCFD2143" "RCON2143").getD 0
  else
    (prefer_rcfd row "RCFD3163" "RCON3163").getD 0
      + (prefer_rcfd row "RCFD0426" "RCON0426").getD 0

/-- `df["tradingassets"]`. -/
def tradingassets (row : Row) : ℚ := (prefer_rcfd row "RCFD3545" "RCON3545").getD 0

/-- `df["fixedassets"]`. -/
def fixedassets (row : Row) : ℚ := (prefer_rcfd row "RCFD2145" "RCON2145").getD 0

/-- `df["otherrealestate"]`. -/
def otherrealestate (row : Row) : ℚ := (prefer_rcfd row "RCFD2150" "RCON2150").getD 0

/-- `df["equitystakes"]`. -/
def equitystakes (row : Row) : ℚ := (prefer_rcfd row "RCFD2130" "RCON2130").getD 0

/-- `df["otherassets"]`. -/
def otherassets (row : Row) : ℚ := (prefer_rcfd row "RCFD2160" "RCON2160").getD 0

/-- The eleven component category columns computed by `process_quarter`,
in source order (the twelfth standardized category, total assets, is the
independently reported comparison target, not a summand). -/
def categoryValues (row : Row) (report_date : Date) : List ℚ :=
  [compute_cash row, compute_securities row report_date,
   compute_ffsrepo row report_date, compute_loans row report_date,
   tradingassets row, fixedassets row, otherrealestate row,
   equitystakes row, compute_item9 row report_date,
   compute_intangibles row report_date, otherassets row]

/-- `df["assetcheck"]`: the sum of the eleven component columns
(`process_quarter`, reconciliation block). -/
def assetcheck (row : Row) (report_date : Date) : ℚ :=
  compute_cash row + compute_securities row report_date
    + compute_ffsrepo row report_date + compute_loans row report_date
    + tradingassets row + fixedassets row + otherrealestate row
    + equitystakes row + compute_item9 row report_date
    + compute_intangibles row report_date + otherassets row

/-- `df["pass_flag"] = (df["asset_diff"].abs() <= 1)`: tolerance of one
currency unit on the reconciliation difference. -/
def pass_flag (check total : ℚ) : Bool := decide (ratAbs (check - total) ≤ 1)

/-- One row of the output panel of `build_full_panel.py`
(columns `date`, `assets`, `assetcheck`, `asset_diff`, `pass_flag`; the
textual `bankid`/`quarter` identifiers carry no numeric content and are
not modelled). -/
structure Out where
  date : Date
  assets : ℚ
  assetcheck : ℚ
  asset_diff : ℚ
  pass_flag : Bool
deriving DecidableEq

/-- Per-row tail of `process_quarter`: resolve total assets from
2170; a row whose resolved total is `NaN` is dropped
(`df.dropna(subset=["assets"])`) before the category columns are built. -/
def process_row (row : Row) (report_date : Date) : Option Out :=
  match prefer_rcfd row "RCFD2170" "RCON2170" with
  | none => none
  | some a =>
      some { date := report_date
             assets := a
             assetcheck := assetcheck row report_date
             asset_diff := assetcheck row report_date - a
             pass_flag := pass_flag (assetcheck row report_date) a }

/-- Outcome of locating, naming and reading one quarter directory for
`build_full_panel.process_quarter`: either no Schedule RC file was found,
or no date could be parsed from the file name, or `pd.read_csv` raised
a parse exception, or a table with the given raw column names, rows and
file-name date was obtained. -/
inductive QInput where
  | no_rc_file
  | bad_filename_date
  | parse_failure
  | parsed (cols : List String) (rows : List Row) (report_date : Date)

/-- `process_quarter`: `None` for a missing file, an unparseable file-name
date, or a missing `IDRSSD` column; the rows of the standardized frame
otherwise.  The `pd.read_csv` call sits in **no** `try` block, so a parse
exception escapes `process_quarter` — modelled as `Except.error`. -/
def process_quarter (q : QInput) : Except Unit (Option (List Out)) :=
  match q with
  | .no_rc_file => .ok none
  | .bad_filename_date => .ok none
  | .parse_failure => .error ()
  | .parsed cols rows report_date =>
      if "IDRSSD" ∈ cols then
        .ok (some (rows.filterMap (fun r => process_row r report_date)))
      else .ok none

/-- The quarter loop of `build_full_panel.main`: quarters whose
`process_quarter` returns `None` contribute nothing; an exception raised
inside `process_quarter` aborts the whole run (there is no surrounding
handler). -/
def main : List QInput → Except Unit (List Out)
  | [] => .ok []
  | q :: rest => do
      let r ← process_quarter q
      let restOut ← main rest
      pure (r.getD [] ++ restOut)

/-- Insertion step for sorting quarter directories by name. -/
def insertByQdir (x : Date × QInput) :
    List (Date × QInput) → List (Date × QInput)
  | [] => [x]
  | y :: ys =>
      if qdirNum x.1 ≤ qdirNum y.1 then x :: y :: ys else y :: insertByQdir x ys

/-- `sorted([p for p in BASE.iterdir() if p.is_dir()])`: the quarter
directories, sorted by their `MMDDYY` names (numerically on `qdirNum`,
which is the same order). -/
def sortByQdir (l : List (Date × QInput)) : List (Date × QInput) :=
  l.foldr insertByQdir []

/-- The whole `build_full_panel.main` run on a directory listing: sort the
quarter directories by name, then process them in that order. -/
def run (dirs : List (Date × QInput)) : Except Unit (List Out) :=
  main ((sortByQdir dirs).map Prod.snd)

end FP

namespace RC

/-! ## build_rc_assets_panel.py -/

/-- Row-wise core of `rowwise_max`:
`pd.concat([a, b], axis=1).max(axis=1, skipna=True)`, i.e.
`max(x, NaN) = x`, `max(NaN, y) = y`, `max(NaN, NaN) = NaN`. -/
def max_core (a b : Val) : Val :=
  match a, b with
  | some x, some y => some (max x y)
  | some x, none => some x
  | none, some y => some y
  | none, none => none

/-- `rowwise_max(df, a, b)` applied to one row (columns already
normalized to lowercase by `normalize_columns`, absent columns created
as `NaN` by `ensure_numeric_cols`). -/
def rowwise_max (row : Row) (a b : String) : Val :=
  max_core (row a) (row b)

/-- `out["cash_nonint"]`. -/
def cash_nonint (row : Row) : Val := rowwise_max row "rcfd0081" "rcon0081"

/-- `out["cash_int"]`. -/
def cash_int (row : Row) : Val := rowwise_max row "rcfd0071" "rcon0071"

/-- `out["cash_tot"] = out["cash_nonint"] + out["cash_int"]` (pandas `+`,
which propagates `NaN`). -/
def cash_tot (row : Row) : Val := nanAdd (cash_nonint row) (cash_int row)

/-- `out["securities_htm_ac"]`: 1754 within 1996Q4-2018Q4, JJ34 from
2019Q1, `NaN` outside the stated validity. -/
def securities_htm_ac (row : Row) (qdate : Date) : Val :=
  if between qdate 1996 12 31 2018 12 31 then rowwise_max row "rcfd1754" "rcon1754"
  else if is_geq qdate 2019 3 31 then rowwise_max row "rcfdjj34" "rconjj34"
  else none

/-- `out["securities_afs_fv"]`. -/
def securities_afs_fv (row : Row) : Val := rowwise_max row "rcfd1773" "rcon1773"

/-- `out["securities_equity_fv"]`: JA22 from 2018Q1, `NaN` before. -/
def securities_equity_fv (row : Row) (qdate : Date) : Val :=
  if is_geq qdate 2018 3 31 then rowwise_max row "rcfdja22" "rconja22" else none

/-- `out["sec_tot"]`: HTM + AFS up to 2017Q4, HTM + AFS + equity from
2018Q1 (pandas `+`). -/
def sec_tot (row : Row) (qdate : Date) : Val :=
  if is_leq qdate 2017 12 31 then
    nanAdd (securities_htm_ac row qdate) (securities_afs_fv row)
  else
    nanAdd (nanAdd (securities_htm_ac row qdate) (securities_afs_fv row))
      (securities_equity_fv row qdate)

/-- `out["ffs"]`: 0276 at 1996Q4 exactly, the single domestic column
`rconb987` from 2002Q1, `NaN` otherwise. -/
def ffs (row : Row) (qdate : Date) : Val :=
  if onDate qdate 1996 12 31 then rowwise_max row "rcfd0276" "rcon0276"
  else if is_geq qdate 2002 3 31 then row "rconb987"
  else none

/-- `out["repo"]`: 0277 at 1996Q4 exactly, B989 from 2002Q1, `NaN`
otherwise. -/
def repo (row : Row) (qdate : Date) : Val :=
  if onDate qdate 1996 12 31 then rowwise_max row "rcfd0277" "rcon0277"
  else if is_geq qdate 2002 3 31 then rowwise_max row "rcfdb989" "rconb989"
  else none

/-- `out["ffsrepo"]`: the combined item 1350, defined 1997Q1-2001Q4 only. -/
def ffsrepo (row : Row) (qdate : Date) : Val :=
  if between qdate 1997 3 31 2001 12 31 then rowwise_max row "rcfd1350" "rcon1350"
  else none

/-- `out["ffsrepo_tot"]`: ffs + repo at 1996Q4, the combined item in
1997Q1-2001Q4, ffs + repo from 2002Q1, `NaN` otherwise (pandas `+`). -/
def ffsrepo_tot (row : Row) (qdate : Date) : Val :=
  if onDate qdate 1996 12 31 then nanAdd (ffs row qdate) (repo row qdate)
  else if between qdate 1997 3 31 2001 12 31 then ffsrepo row qdate
  else if is_geq qdate 2002 3 31 then nanAdd (ffs row qdate) (repo row qdate)
  else none

/-- `out["loan_netunearnedinc"]`. -/
def loan_netunearnedinc (row : Row) (qdate : Date) : Val :=
  if is_leq qdate 2000 12 31 then rowwise_max row "rcfd2122" "rcon2122"
  else rowwise_max row "rcfdb528" "rconb528"

/-- `out["loan_transriskreserve"]` (defined through 2000Q4 only). -/
def loan_transriskreserve (row : Row) (qdate : Date) : Val :=
  if is_leq qdate 2000 12 31 then rowwise_max row "rcfd3128" "rcon3128"
  else none

/-- `out["loan_alll"]`. -/
def loan_alll (row : Row) : Val := rowwise_max row "rcfd3123" "rcon3123"

/-- `out["loan_net"]`. -/
def loan_net (row : Row) (qdate : Date) : Val :=
  if is_leq qdate 2000 12 31 then rowwise_max row "rcfd2125" "rcon2125"
  else rowwise_max row "rcfdb529" "rconb529"

/-- `out["loan_afs"]` (2001Q1 on, `NaN` before). -/
def loan_afs (row : Row) (qdate : Date) : Val :=
  if is_geq qdate 2001 3 31 then rowwise_max row "rcfd5369" "rcon5369"
  else none

/-- `out["loan_tot"]`: the net figure through 2000Q4; net + held-for-sale
afterwards (pandas `+`). -/
def loan_tot (row : Row) (qdate : Date) : Val :=
  if is_leq qdate 2000 12 31 then loan_net row qdate
  else nanAdd (loan_net row qdate) (loan_afs row qdate)

/-- `out["tradingassets"]`. -/
def tradingassets (row : Row) : Val := rowwise_max row "rcfd3545" "rcon3545"

/-- `out["fixedassets"]`. -/
def fixedassets (row : Row) : Val := rowwise_max row "rcfd2145" "rcon2145"

/-- `out["otherrealestate"]`. -/
def otherrealestate (row : Row) : Val := rowwise_max row "rcfd2150" "rcon2150"

/-- `out["equitystakes"]`. -/
def equitystakes (row : Row) : Val := rowwise_max row "rcfd2130" "rcon2130"

/-- `out["receivables"]`: acceptances 2155 within 1996Q1-2005Q4, `NaN` in
every other item-9 regime. -/
def receivables (row : Row) (qdate : Date) : Val :=
  if between qdate 1996 3 31 2005 12 31 then rowwise_max row "rcfd2155" "rcon2155"
  else none

/-- `out["invrealestatefunds"]`: 3656 from 2009Q2, `NaN` in every other
item-9 regime. -/
def invrealestatefunds (row : Row) (qdate : Date) : Val :=
  if is_geq qdate 2009 6 30 then rowwise_max row "rcfd3656" "rcon3656"
  else none

/-- `out["item9"]`: receivables within 1996Q1-2005Q4, **`NaN`** in the
undefined 2006Q1-2009Q1 window, real-estate ventures from 2009Q2, `NaN`
otherwise. -/
def item9 (row : Row) (qdate : Date) : Val :=
  if between qdate 1996 3 31 2005 12 31 then receivables row qdate
  else if between qdate 2006 3 31 2009 3 31 then none
  else if is_geq qdate 2009 6 30 then invrealestatefunds row qdate
  else none

/-- `out["intangibles"]`: 2143 through 2000Q4, goodwill + other
intangibles 2001Q1-2018Q1 (pandas `+`), 2143 again from 2018Q2, `NaN`
otherwise. -/
def intangibles (row : Row) (qdate : Date) : Val :=
  if is_leq qdate 2000 12 31 then rowwise_max row "rcfd2143" "rcon2143"
  else if between qdate 2001 3 31 2018 3 31 then
    nanAdd (rowwise_max row "rcfd3163" "rcon3163") (rowwise_max row "rcfd0426" "rcon0426")
  else if is_geq qdate 2018 6 30 then rowwise_max row "rcfd2143" "rcon2143"
  else none

/-- `out["otherassets"]`. -/
def otherassets (row : Row) : Val := rowwise_max row "rcfd2160" "rcon2160"

/-- `out["assets"]`, the independently reported total (category 12). -/
def assets (row : Row) : Val := rowwise_max row "rcfd2170" "rcon2170"

/-- The `components` list of `compute_items_for_quarter`, in source
order: the eleven summed category columns (total assets, the twelfth
standardized category, is the comparison target and is not a summand). -/
def categoryValues (row : Row) (qdate : Date) : List Val :=
  [cash_tot row, sec_tot row qdate, ffsrepo_tot row qdate, loan_tot row qdate,
   tradingassets row, fixedassets row, otherrealestate row, equitystakes row,
   item9 row qdate, intangibles row qdate, otherassets row]

/-- `out["assetcheck"] = out[components].sum(axis=1, skipna=True)`. -/
def assetcheck (row : Row) (qdate : Date) : ℚ := sumSkipna (categoryValues row qdate)

/-- `out["assetcheck_ok"]`: `False` by default; strict equality of
`assetcheck` and `assets` exactly where both are non-missing. -/
def assetcheck_okP (check total : Val) : Bool :=
  match check, total with
  | some c, some a => decide (c = a)
  | _, _ => false

/-- One row of the output panel of `build_rc_assets_panel.py` (all numeric
columns of `compute_items_for_quarter`'s `out` frame; the `idrssd`,
`qdate`-string and `qdir` identifier columns carry no numeric content
beyond the quarter date kept here). -/
structure Out where
  qdate : Date
  cash_nonint : Val
  cash_int : Val
  cash_tot : Val
  securities_htm_ac : Val
  securities_afs_fv : Val
  securities_equity_fv : Val
  sec_tot : Val
  ffs : Val
  repo : Val
  ffsrepo : Val
  ffsrepo_tot : Val
  loan_netunearnedinc : Val
  loan_transriskreserve : Val
  loan_alll : Val
  loan_net : Val
  loan_afs : Val
  loan_tot : Val
  tradingassets : Val
  fixedassets : Val
  otherrealestate : Val
  equitystakes : Val
  receivables : Val
  invrealestatefunds : Val
  item9 : Val
  intangibles : Val
  otherassets : Val
  assets : Val
  assetcheck : ℚ
  assetcheck_ok : Bool
deriving DecidableEq

/-- The per-row content of `compute_items_for_quarter`: every output
column for one institution row.  No row is dropped: a row with missing
reported total assets stays in the output with `assets = NaN`. -/
def compute_row (row : Row) (qdate : Date) : Out where
  qdate := qdate
  cash_nonint := cash_nonint row
  cash_int := cash_int row
  cash_tot := cash_tot row
  securities_htm_ac := securities_htm_ac row qdate
  securities_afs_fv := securities_afs_fv row
  securities_equity_fv := securities_equity_fv row qdate
  sec_tot := sec_tot row qdate
  ffs := ffs row qdate
  repo := repo row qdate
  ffsrepo := ffsrepo row qdate
  ffsrepo_tot := ffsrepo_tot row qdate
  loan_netunearnedinc := loan_netunearnedinc row qdate
  loan_transriskreserve := loan_transriskreserve row qdate
  loan_alll := loan_alll row
  loan_net := loan_net row qdate
  loan_afs := loan_afs row qdate
  loan_tot := loan_tot row qdate
  tradingassets := tradingassets row
  fixedassets := fixedassets row
  otherrealestate := otherrealestate row
  equitystakes := equitystakes row
  receivables := receivables row qdate
  invrealestatefunds := invrealestatefunds row qdate
  item9 := item9 row qdate
  intangibles := intangibles row qdate
  otherassets := otherassets row
  assets := assets row
  assetcheck := assetcheck row qdate
  assetcheck_ok := assetcheck_okP (some (assetcheck row qdate)) (assets row)

/-- The stored component columns of an output row, in the `components`
order used to build `assetcheck`. -/
def storedComponents (o : Out) : List Val :=
  [o.cash_tot, o.sec_tot, o.ffsrepo_tot, o.loan_tot, o.tradingassets,
   o.fixedassets, o.otherrealestate, o.equitystakes, o.item9,
   o.intangibles, o.otherassets]

/-- The twelve standardized category columns of an output row — the
eleven components plus total assets — read off as the specification's
words describe them ("sum of the twelve category values"). -/
def storedTwelveCategories (o : Out) : List Val :=
  storedComponents o ++ [o.assets]

/-- Every raw mnemonic any regime of `compute_items_for_quarter` may
request (the `needed` list, verbatim). -/
def needed : List String :=
  ["rcfd0081", "rcon0081", "rcfd0071", "rcon0071",
   "rcfd1754", "rcon1754",
   "rcfdjj34", "rconjj34",
   "rcfd1773", "rcon1773",
   "rcfdja22", "rconja22",
   "rcfd0276", "rcon0276",
   "rconb987",
   "rcfd0277", "rcon0277",
   "rcfdb989", "rconb989",
   "rcfd1350", "rcon1350",
   "rcfd2122", "rcon2122",
   "rcfdb528", "rconb528",
   "rcfd3128", "rcon3128",
   "rcfd3123", "rcon3123",
   "rcfd2125", "rcon2125",
   "rcfdb529", "rconb529",
   "rcfd5369", "rcon5369",
   "rcfd3545", "rcon3545",
   "rcfd2145", "rcon2145",
   "rcfd2150", "rcon2150",
   "rcfd2130", "rcon2130",
   "rcfd2155", "rcon2155",
   "rcfd3656", "rcon3656",
   "rcfd2143", "rcon2143",
   "rcfd3163", "rcon3163",
   "rcfd0426", "rcon0426",
   "rcfd2160", "rcon2160",
   "rcfd2170", "rcon2170"]

/-- `missing_cols = [c for c in needed if c not in df.columns]`: the
declared mnemonics absent from the (normalized) column list of the
quarter's table.  Per-row blankness plays no part — only the column
list enters. -/
def missing_cols (cols : List String) : List String :=
  needed.filter (fun c => decide (c ∉ cols))

/-- The per-quarter missing-field log entries, one per absent identifier:
`for c in sorted(set(missing_cols)): missing_rows.append(...)`.  `dedup`
models `set(...)`; the `sorted` order does not affect which identifiers
appear or how often. -/
def missingLog (cols : List String) : List String :=
  (missing_cols cols).dedup

/-- Per-quarter status flag recorded in the summary table of
`build_rc_assets_panel.main`. -/
inductive Status where
  | no_quarter_dir
  | no_schedule_rc
  | parse_error
  | compute_error
  | ok
deriving DecidableEq

/-- Outcome of locating and reading one quarter for
`build_rc_assets_panel.main`: the quarter directory may be missing, the
Schedule RC file may be missing, `read_schedule_rc` may raise even in
forgiving mode, or a table with the given (normalized) column names and
rows is obtained. -/
inductive QInput where
  | no_quarter_dir
  | no_schedule_rc
  | parse_failure
  | parsed (cols : List String) (rows : List Row)

/-- `compute_items_for_quarter` on a parsed table: raises (`Except.error`)
iff the normalized columns contain no `idrssd`; otherwise returns one
output row per institution row. -/
def compute_items_for_quarter (cols : List String) (rows : List Row)
    (qdate : Date) : Except String (List Out) :=
  if "idrssd" ∈ cols then .ok (rows.map (fun r => compute_row r qdate))
  else .error "Schedule RC file does not contain IDRSSD column"

/-- One iteration of the quarter loop of `build_rc_assets_panel.main`:
every failure mode is caught and becomes a status flag with zero panel
rows; nothing escapes the iteration. -/
def quarter_step (q : QInput) (qdate : Date) : Status × List Out :=
  match q with
  | .no_quarter_dir => (.no_quarter_dir, [])
  | .no_schedule_rc => (.no_schedule_rc, [])
  | .parse_failure => (.parse_error, [])
  | .parsed cols rows =>
      match compute_items_for_quarter cols rows qdate with
      | .error _ => (.compute_error, [])
      | .ok outs => (.ok, outs)

/-- The quarter loop of `build_rc_assets_panel.main` over the requested
quarters in the order given: collects one status per quarter and appends
each quarter's rows to the panel in that order. -/
def main : List (QInput × Date) → List Status × List Out
  | [] => ([], [])
  | (q, d) :: rest =>
      let s := quarter_step q d
      let r := main rest
      (s.1 :: r.1, s.2 ++ r.2)

/-- The `i`-th quarter-end date of the `Q-DEC` grid starting at 1900Q1
(March 31, June 30, September 30, December 31 of each year). -/
def quarterEndOfIndex (i : ℕ) : Date :=
  if i % 4 = 0 then ⟨1900 + i / 4, 3, 31⟩
  else if i % 4 = 1 then ⟨1900 + i / 4, 6, 30⟩
  else if i % 4 = 2 then ⟨1900 + i / 4, 9, 30⟩
  else ⟨1900 + i / 4, 12, 31⟩

/-- `quarter_ends(start, end)`:
`pd.date_range(start, end, freq="Q-DEC")` — the quarter-end dates lying
inside the closed interval, in ascending calendar order (the grid covers
1900Q1 through 2199Q4, enclosing every quarter the scripts handle). -/
def quarter_ends (start stop : Date) : List Date :=
  ((List.range 1200).map quarterEndOfIndex).filter
    (fun q => decide (start.key ≤ q.key) && decide (q.key ≤ stop.key))

end RC

/-! ## Concrete test fixtures -/

/-- Row with consolidated value 100 and domestic value 200 on a test pair. -/
def c1Row : Row :=
  fun c => if c = "rcfd9999" then some 100 else if c = "rcon9999" then some 200 else none

/-- Row whose only present cell is noninterest-bearing cash = 100. -/
def c2Row : Row := fun c => if c = "rcfd0081" then some 100 else none

/-- Row on which every column is present with value 5. -/
def allFive : Row := fun _ => some 5

/-- Row with reported total assets 100 and every other cell 0. -/
def c5Row : Row := fun c => if c = "rcfd2170" then some 100 else some 0

/-- Row whose only present cell is reported total assets = 7. -/
def assetsOnlyRow : Row := fun c => if c = "rcfd2170" then some 7 else none

/-- Full-panel row whose only present cell is reported total assets = 5. -/
def fpGoodRow : Row := fun c => if c = "RCFD2170" then some 5 else none

/-- A well-formed full-panel quarter input holding one institution row. -/
def fpGoodQ (d : Date) : FP.QInput :=
  FP.QInput.parsed ["IDRSSD", "RCFD2170"] [fpGoodRow] d

/-! ## Helper lemmas: category values on the all-missing row -/

lemma ratAbs_eq_abs (x : ℚ) : ratAbs x = |x| := by
  unfold ratAbs
  split_ifs with h
  · exact (abs_of_neg h).symm
  · exact (abs_of_nonneg (le_of_not_lt h)).symm

lemma fp_prefer_empty (a b : String) : FP.prefer_rcfd emptyRow a b = none := rfl

lemma fp_cash_empty : FP.compute_cash emptyRow = 0 := by
  simp [FP.compute_cash, fp_prefer_empty]

lemma fp_sec_empty (d : Date) : FP.compute_securities emptyRow d = 0 := by
  simp only [FP.compute_securities, fp_prefer_empty, Option.getD_none]
  split_ifs <;> norm_num

lemma fp_ffsrepo_empty (d : Date) : FP.compute_ffsrepo emptyRow d = 0 := by
  simp only [FP.compute_ffsrepo, fp_prefer_empty, Option.getD_none]
  split_ifs <;> norm_num

lemma fp_loans_empty (d : Date) : FP.compute_loans emptyRow d = 0 := by
  simp only [FP.compute_loans, fp_prefer_empty, Option.getD_none]
  split_ifs <;> norm_num

lemma fp_item9_empty (d : Date) : FP.compute_item9 emptyRow d = 0 := by
  simp only [FP.compute_item9, fp_prefer_empty, Option.getD_none]
  split_ifs <;> norm_num

lemma fp_intangibles_empty (d : Date) : FP.compute_intangibles emptyRow d = 0 := by
  simp only [FP.compute_intangibles, fp_prefer_empty, Option.getD_none]
  split_ifs <;> norm_num

lemma fp_categoryValues_empty (d : Date) :
    FP.categoryValues emptyRow d = [0, 0, 0, 0, 0, 0, 0, 0, 0, 0, 0] := by
  simp [FP.categoryValues, fp_cash_empty, fp_sec_empty, fp_ffsrepo_empty,
    fp_loans_empty, fp_item9_empty, fp_intangibles_empty, FP.tradingassets,
    FP.fixedassets, FP.otherrealestate, FP.equitystakes, FP.otherassets,
    fp_prefer_empty]

lemma rc_max_empty (a b : String) : RC.rowwise_max emptyRow a b = none := rfl

lemma rc_htm_empty (d : Date) : RC.securities_htm_ac emptyRow d = none := by
  simp only [RC.securities_htm_ac, rc_max_empty]; split_ifs <;> rfl

lemma rc_equity_empty (d : Date) : RC.securities_equity_fv emptyRow d = none := by
  simp only [RC.securities_equity_fv, rc_max_empty]; split_ifs <;> rfl

lemma rc_sec_tot_empty (d : Date) : RC.sec_tot emptyRow d = none := by
  simp only [RC.sec_tot, rc_htm_empty, rc_equity_empty, RC.securities_afs_fv,
    rc_max_empty]
  split_ifs <;> rfl

lemma rc_ffs_empty (d : Date) : RC.ffs emptyRow d = none := by
  simp only [RC.ffs, rc_max_empty]; split_ifs <;> rfl

lemma rc_repo_empty (d : Date) : RC.repo emptyRow d = none := by
  simp only [RC.repo, rc_max_empty]; split_ifs <;> rfl

lemma rc_ffsrepo_empty (d : Date) : RC.ffsrepo emptyRow d = none := by
  simp only [RC.ffsrepo, rc_max_empty]; split_ifs <;> rfl

lemma rc_ffsrepo_tot_empty (d : Date) : RC.ffsrepo_tot emptyRow d = none := by
  simp only [RC.ffsrepo_tot, rc_ffs_empty, rc_repo_empty, rc_ffsrepo_empty]
  split_ifs <;> rfl

lemma rc_loan_net_empty (d : Date) : RC.loan_net emptyRow d = none := by
  simp only [RC.loan_net, rc_max_empty]; split_ifs <;> rfl

lemma rc_loan_afs_empty (d : Date) : RC.loan_afs emptyRow d = none := by
  simp only [RC.loan_afs, rc_max_empty]; split_ifs <;> rfl

lemma rc_loan_tot_empty (d : Date) : RC.loan_tot emptyRow d = none := by
  simp only [RC.loan_tot, rc_loan_net_empty, rc_loan_afs_empty]
  split_ifs <;> rfl

lemma rc_receivables_empty (d : Date) : RC.receivables emptyRow d = none := by
  simp only [RC.receivables, rc_max_empty]; split_ifs <;> rfl

lemma rc_invre_empty (d : Date) : RC.invrealestatefunds emptyRow d = none := by
  simp only [RC.invrealestatefunds, rc_max_empty]; split_ifs <;> rfl

lemma rc_item9_empty (d : Date) : RC.item9 emptyRow d = none := by
  simp only [RC.item9, rc_receivables_empty, rc_invre_empty]
  split_ifs <;> rfl

lemma rc_intangibles_empty (d : Date) : RC.intangibles emptyRow d = none := by
  simp only [RC.intangibles, rc_max_empty]; split_ifs <;> rfl

lemma rc_categoryValues_empty (d : Date) :
    RC.categoryValues emptyRow d =
      [none, none, none, none, none, none, none, none, none, none, none] := by
  simp [RC.categoryValues, rc_sec_tot_empty, rc_ffsrepo_tot_empty,
    rc_loan_tot_empty, rc_item9_empty, rc_intangibles_empty, RC.cash_tot,
    RC.cash_nonint, RC.cash_int, RC.tradingassets, RC.fixedassets,
    RC.otherrealestate, RC.equitystakes, RC.otherassets, rc_max_empty, nanAdd]

/-! ## C1: the field-resolver preference rule -/

/-- **C1** (counterexample). The claim asserts that the Field Resolver
returns identifier a's value whenever a is present and non-zero,
regardless of b. `rowwise_max` (`build_rc_assets_panel.py`), one of the
two resolvers the claim covers, violates this: with a = 100 present and
non-zero and b = 200, it returns 200, not 100. -/
theorem C1_counterexample :
    RC.rowwise_max c1Row "rcfd9999" "rcon9999" = some 200 ∧
      (some 200 : Val) ≠ some 100 := by
  constructor
  · rfl
  · decide

/-- **C1** (amended). `prefer_rcfd` (`build_full_panel.py`) implements the
preference rule exactly as claimed: it returns a when a is present and
non-zero, b when a is `NaN`-or-zero while b is present and non-zero, and
a otherwise; `rowwise_max` (`build_rc_assets_panel.py`) instead returns
the row-wise maximum skipping `NaN`, which agrees with the rule on the
claim's three cited examples (A=100,B=0 → 100; A=0,B=50 → 50; both
missing → "no value") but not in general. -/
theorem C1_amended :
    (∀ a b : Val, a ≠ none → a ≠ some 0 → FP.prefer_core a b = a) ∧
    (∀ a b : Val, (a = none ∨ a = some 0) → b ≠ none → b ≠ some 0 →
      FP.prefer_core a b = b) ∧
    (∀ a b : Val, (a = none ∨ a = some 0) → (b = none ∨ b = some 0) →
      FP.prefer_core a b = a) ∧
    (FP.prefer_core (some 100) (some 0) = some 100 ∧
      FP.prefer_core (some 0) (some 50) = some 50 ∧
      FP.prefer_core none none = none) ∧
    (RC.max_core (some 100) (some 0) = some 100 ∧
      RC.max_core (some 0) (some 50) = some 50 ∧
      RC.max_core none none = none) := by
  refine ⟨?_, ?_, ?_, ⟨by decide, by decide, by decide⟩, ⟨by decide, by decide, by decide⟩⟩
  · intro a b ha ha0
    unfold FP.prefer_core
    split_ifs with h
    · rcases h with ⟨h1 | h1, _⟩
      · exact absurd h1 ha
      · exact absurd h1 ha0
    · rfl
  · intro a b ha hb hb0
    unfold FP.prefer_core
    split_ifs with h
    · rfl
    · exact absurd ⟨ha, hb, hb0⟩ h
  · intro a b ha hb
    unfold FP.prefer_core
    split_ifs with h
    · rcases h with ⟨_, hbn, hb0⟩
      rcases hb with h | h
      · exact absurd h hbn
      · exact absurd h hb0
    · rfl

/-- **C1** witness: the amended preference rule evaluated at concrete
inputs a = 7, b = 3 (first clause) and a = 0, b = 50 (second clause). -/
theorem C1_witness :
    FP.prefer_core (some 7) (some 3) = some 7 ∧
      FP.prefer_core (some 0) (some 50) = some 50 :=
  ⟨C1_amended.1 (some 7) (some 3) (by decide) (by decide),
   C1_amended.2.1 (some 0) (some 50) (by decide) (by decide) (by decide)⟩

/-! ## C2: missingness semantics of the category aggregator -/

/-- **C2** (counterexample). The claim asserts that a category with at
least one present operand gets a defined numeric value.  In
`build_rc_assets_panel.py` the cash category is the pandas sum
`cash_nonint + cash_int`, which propagates `NaN`: on a row whose
noninterest-bearing cash is present (100) but whose interest-bearing cash
is missing, the category result is "no value". -/
theorem C2_counterexample :
    RC.cash_nonint c2Row = some 100 ∧ RC.cash_tot c2Row = none := by
  constructor <;> rfl

/-- **C2** (amended). If every operand of a category is "no value" the
category result is "no value" in `build_rc_assets_panel.py` — but there a
single missing operand already poisons the pandas sum (`a + b` is `NaN`
iff either side is), so a present operand does not guarantee a defined
result; in `build_full_panel.py` every operand is `fillna(0)`-ed first,
so every category value is a defined number and an all-missing row yields
the number 0, not "no value". -/
theorem C2_amended :
    (∀ d : Date, ∀ v ∈ RC.categoryValues emptyRow d, v = none) ∧
    (∀ d : Date, ∀ x ∈ FP.categoryValues emptyRow d, x = 0) ∧
    (∀ a b : Val, nanAdd a b = none ↔ a = none ∨ b = none) := by
  refine ⟨?_, ?_, ?_⟩
  · intro d v hv
    rw [rc_categoryValues_empty] at hv
    simpa using hv
  · intro d x hx
    rw [fp_categoryValues_empty] at hx
    simpa using hx
  · intro a b
    cases a <;> cases b <;> simp [nanAdd]

/-- **C2** witness: the amended missingness rule evaluated at the
all-missing row and the 2001Q1 reporting date, on the head category
(cash) of each script. -/
theorem C2_witness :
    RC.cash_tot emptyRow = none ∧ FP.compute_cash emptyRow = 0 :=
  ⟨C2_amended.1 ⟨2001, 3, 31⟩ (RC.cash_tot emptyRow) (by simp [RC.categoryValues]),
   C2_amended.2.1 ⟨2001, 3, 31⟩ (FP.compute_cash emptyRow) (by simp [FP.categoryValues])⟩

/-! ## C3: the reconciliation pass flag -/

/-- **C3** (confirmed). Each script's pass flag is true exactly when both
sides are present and the absolute reconciliation difference is within
that script's configured tolerance: one currency unit in
`build_full_panel.py` (whose rows always carry both sides, total assets
having been resolved before the flag is computed), and zero (strict
equality) in `build_rc_assets_panel.py`; with tolerance 1, assetcheck
1,000,000 against reported 1,000,000.50 passes while 1,000,005 fails, and
a row with either side missing gets flag false. -/
theorem C3_theorem :
    (∀ check total : ℚ, FP.pass_flag check total = true ↔ |check - total| ≤ 1) ∧
    (∀ check total : Val, RC.assetcheck_okP check total = true ↔
      ∃ c a : ℚ, check = some c ∧ total = some a ∧ |c - a| ≤ 0) ∧
    (FP.pass_flag 1000000 (1000000 + 1/2) = true ∧
      FP.pass_flag 1000000 1000005 = false) ∧
    (∀ v : Val, RC.assetcheck_okP none v = false ∧ RC.assetcheck_okP v none = false) := by
  refine ⟨?_, ?_, ⟨by norm_num [FP.pass_flag, ratAbs],
    by norm_num [FP.pass_flag, ratAbs]⟩, ?_⟩
  · intro check total
    simp [FP.pass_flag, ratAbs_eq_abs]
  · intro check total
    cases check with
    | none => simp [RC.assetcheck_okP]
    | some c =>
        cases total with
        | none => simp [RC.assetcheck_okP]
        | some a =>
            simp [RC.assetcheck_okP, abs_nonpos_iff, sub_eq_zero]
  · intro v
    cases v <;> simp [RC.assetcheck_okP]

/-! ## C4: item 9 in the undefined 2006Q1-2009Q1 window -/

/-- **C4** (counterexample). The claim asserts that inside the undefined
window the item-9 value is "no value", not zero, in every filing table.
`build_full_panel.compute_item9` returns exactly 0 there (on a row where
every raw field is present with value 5, at 2007-06-30), while
`build_rc_assets_panel` returns "no value" on the same input. -/
theorem C4_counterexample :
    FP.compute_item9 allFive ⟨2007, 6, 30⟩ = 0 ∧
      RC.item9 allFive ⟨2007, 6, 30⟩ = none := by
  constructor <;> decide

/-- **C4** (amended). For every reporting date in the deliberately
undefined item-9 window (2006Q1 through 2009Q1) and every row,
`build_rc_assets_panel` stores "no value" for item 9, while
`build_full_panel` stores exactly 0. -/
theorem C4_amended :
    ∀ (row : Row) (d : Date), between d 2006 3 31 2009 3 31 →
      RC.item9 row d = none ∧ FP.compute_item9 row d = 0 := by
  intro row d hd
  obtain ⟨h1, h2⟩ := hd
  simp only [Date.key] at h1 h2
  constructor
  · unfold RC.item9
    split_ifs with hA hB hC
    · exfalso
      obtain ⟨_, hA2⟩ := hA
      simp only [Date.key] at hA2
      omega
    · rfl
    · exfalso
      unfold is_geq at hC
      simp only [Date.key] at hC
      omega
    · rfl
  · unfold FP.compute_item9
    split_ifs with hA hB hC
    · exfalso
      unfold is_leq at hA
      simp only [Date.key] at hA
      omega
    · rfl
    · exfalso
      apply hB
      unfold between
      simp only [Date.key]
      omega
    · rfl

/-- **C4** witness: the amended window behavior at the all-missing row
and the in-window date 2008-09-30. -/
theorem C4_witness :
    RC.item9 emptyRow ⟨2008, 9, 30⟩ = none ∧
      FP.compute_item9 emptyRow ⟨2008, 9, 30⟩ = 0 :=
  C4_amended emptyRow ⟨2008, 9, 30⟩ (by decide)

/-! ## C5: what the stored assetcheck sums -/

lemma c5_categories :
    RC.categoryValues c5Row ⟨2010, 6, 30⟩ =
      [some 0, some 0, some 0, some 0, some 0, some 0, some 0, some 0,
       some 0, some 0, some 0] := by
  simp [RC.categoryValues, RC.cash_tot, RC.cash_nonint, RC.cash_int,
    RC.sec_tot, RC.securities_htm_ac, RC.securities_afs_fv,
    RC.securities_equity_fv, RC.ffsrepo_tot, RC.ffs, RC.repo, RC.ffsrepo,
    RC.loan_tot, RC.loan_net, RC.loan_afs, RC.tradingassets, RC.fixedassets,
    RC.otherrealestate, RC.equitystakes, RC.item9, RC.receivables,
    RC.invrealestatefunds, RC.intangibles, RC.otherassets, RC.rowwise_max,
    RC.max_core, nanAdd, c5Row, is_leq, is_geq, between, onDate, Date.key]

/-- **C5** (counterexample). The claim asserts that the stored assetcheck
equals the sum of the twelve standardized category columns.  On a row
with every raw field 0 except reported total assets 100 (at 2010-06-30),
the stored assetcheck is 0 — the sum of the **eleven** component
columns — while the sum over all twelve stored category columns
(components plus total assets) is 100. -/
theorem C5_counterexample :
    (RC.compute_row c5Row ⟨2010, 6, 30⟩).assetcheck = 0 ∧
      sumSkipna (RC.storedTwelveCategories (RC.compute_row c5Row ⟨2010, 6, 30⟩)) = 100 ∧
      (0 : ℚ) ≠ 100 := by
  refine ⟨?_, ?_, by decide⟩
  · show RC.assetcheck c5Row ⟨2010, 6, 30⟩ = 0
    rw [RC.assetcheck, c5_categories]
    simp [sumSkipna]
  · show sumSkipna (RC.categoryValues c5Row ⟨2010, 6, 30⟩ ++ [RC.assets c5Row]) = 100
    rw [c5_categories]
    simp [sumSkipna, RC.assets, RC.rowwise_max, RC.max_core, c5Row]

/-- **C5** (amended). The stored assetcheck of every panel row equals the
skip-missing sum of the **eleven** stored component category columns —
every standardized category except total assets, which is the
independently reported comparison target — and recomputing that sum from
the stored columns reproduces the stored value exactly; likewise
`build_full_panel`'s assetcheck is the sum of its eleven category
columns. -/
theorem C5_amended :
    (∀ (row : Row) (d : Date),
      (RC.compute_row row d).assetcheck =
        sumSkipna (RC.storedComponents (RC.compute_row row d))) ∧
    (∀ (row : Row) (d : Date) (out : FP.Out), FP.process_row row d = some out →
      out.assetcheck = FP.compute_cash row + FP.compute_securities row d
        + FP.compute_ffsrepo row d + FP.compute_loans row d
        + FP.tradingassets row + FP.fixedassets row + FP.otherrealestate row
        + FP.equitystakes row + FP.compute_item9 row d
        + FP.compute_intangibles row d + FP.otherassets row) := by
  constructor
  · intro row d
    rfl
  · intro row d out h
    cases hm : FP.prefer_rcfd row "RCFD2170" "RCON2170" with
    | none =>
        rw [FP.process_row, hm] at h
        cases h
    | some a =>
        simp only [FP.process_row, hm, Option.some.injEq] at h
        subst h
        rfl

/-- **C5** witness: the full-panel assetcheck identity evaluated on a
concrete surviving row (reported total 5, all components absent) at
2001-03-31. -/
theorem C5_witness :
    ({ date := ⟨2001, 3, 31⟩, assets := 5,
       assetcheck := FP.assetcheck fpGoodRow ⟨2001, 3, 31⟩,
       asset_diff := FP.assetcheck fpGoodRow ⟨2001, 3, 31⟩ - 5,
       pass_flag := FP.pass_flag (FP.assetcheck fpGoodRow ⟨2001, 3, 31⟩) 5 } : FP.Out).assetcheck
      = FP.compute_cash fpGoodRow + FP.compute_securities fpGoodRow ⟨2001, 3, 31⟩
        + FP.compute_ffsrepo fpGoodRow ⟨2001, 3, 31⟩ + FP.compute_loans fpGoodRow ⟨2001, 3, 31⟩
        + FP.tradingassets fpGoodRow + FP.fixedassets fpGoodRow
        + FP.otherrealestate fpGoodRow + FP.equitystakes fpGoodRow
        + FP.compute_item9 fpGoodRow ⟨2001, 3, 31⟩
        + FP.compute_intangibles fpGoodRow ⟨2001, 3, 31⟩ + FP.otherassets fpGoodRow :=
  C5_amended.2 fpGoodRow ⟨2001, 3, 31⟩ _ rfl

/-! ## C7: rows lacking the reported total -/

/-- **C7** (counterexample). The claim asserts that every row of the
assembled panel has a present reported total-assets value.  Running the
`build_rc_assets_panel` quarter loop on one well-formed quarter whose
single institution row reports nothing places that row in the panel with
`assets = NaN` — no drop happens. -/
theorem C7_counterexample :
    RC.main [(RC.QInput.parsed ["idrssd"] [emptyRow], ⟨2010, 6, 30⟩)]
      = ([RC.Status.ok], [RC.compute_row emptyRow ⟨2010, 6, 30⟩]) ∧
      (RC.compute_row emptyRow ⟨2010, 6, 30⟩).assets = none := by
  exact ⟨rfl, rfl⟩

/-- **C7** (amended). `build_full_panel` drops a row before aggregation
exactly when its resolved total assets is "no value", and every surviving
row's stored total is the resolved one; `build_rc_assets_panel` keeps
every row — its stored total is the raw resolution, and a row whose total
is missing simply gets pass flag false. -/
theorem C7_amended :
    (∀ (row : Row) (d : Date),
      FP.process_row row d ≠ none ↔ FP.prefer_rcfd row "RCFD2170" "RCON2170" ≠ none) ∧
    (∀ (row : Row) (d : Date) (out : FP.Out), FP.process_row row d = some out →
      FP.prefer_rcfd row "RCFD2170" "RCON2170" = some out.assets) ∧
    (∀ (row : Row) (d : Date), (RC.compute_row row d).assets = RC.assets row) ∧
    (∀ (row : Row) (d : Date), (RC.compute_row row d).assets = none →
      (RC.compute_row row d).assetcheck_ok = false) := by
  refine ⟨?_, ?_, ?_, ?_⟩
  · intro row d
    cases hm : FP.prefer_rcfd row "RCFD2170" "RCON2170" with
    | none => simp [FP.process_row, hm]
    | some a => simp [FP.process_row, hm]
  · intro row d out h
    cases hm : FP.prefer_rcfd row "RCFD2170" "RCON2170" with
    | none =>
        rw [FP.process_row, hm] at h
        cases h
    | some a =>
        simp only [FP.process_row, hm, Option.some.injEq] at h
        subst h
        rfl
  · intro row d
    rfl
  · intro row d h
    have h2 : RC.assets row = none := h
    show RC.assetcheck_okP (some (RC.assetcheck row d)) (RC.assets row) = false
    rw [h2]
    rfl

/-- **C7** witness: the kept-but-unevaluated behavior of
`build_rc_assets_panel` at the all-missing row and 2010-06-30. -/
theorem C7_witness :
    (RC.compute_row emptyRow ⟨2010, 6, 30⟩).assetcheck_ok = false :=
  C7_amended.2.2.2 emptyRow ⟨2010, 6, 30⟩ rfl

/-! ## C10: assetcheck is total and evaluation needs only the reported total -/

lemma c10_categories :
    RC.categoryValues assetsOnlyRow ⟨2010, 6, 30⟩ =
      [none, none, none, none, none, none, none, none, none, none, none] := by
  simp [RC.categoryValues, RC.cash_tot, RC.cash_nonint, RC.cash_int,
    RC.sec_tot, RC.securities_htm_ac, RC.securities_afs_fv,
    RC.securities_equity_fv, RC.ffsrepo_tot, RC.ffs, RC.repo, RC.ffsrepo,
    RC.loan_tot, RC.loan_net, RC.loan_afs, RC.tradingassets, RC.fixedassets,
    RC.otherrealestate, RC.equitystakes, RC.item9, RC.receivables,
    RC.invrealestatefunds, RC.intangibles, RC.otherassets, RC.rowwise_max,
    RC.max_core, nanAdd, assetsOnlyRow, is_leq, is_geq, between, onDate, Date.key]

/-- **C10** (confirmed). In `build_rc_assets_panel` the stored assetcheck
is always the defined skip-missing sum of the eleven components — `0`,
not "no value", when every component is missing — so the pass-flag mask
`assetcheck.notna() & assets.notna()` degenerates to presence of the
reported total: a row with a present total is always evaluated (strict
equality), as the concrete all-missing-components row with total 7 shows
(assetcheck 0, evaluated, failed). -/
theorem C10_theorem :
    (∀ (row : Row) (d : Date),
      (RC.compute_row row d).assetcheck = sumSkipna (RC.categoryValues row d)) ∧
    (∀ d : Date, (RC.compute_row emptyRow d).assetcheck = 0) ∧
    (∀ (row : Row) (d : Date) (a : ℚ), (RC.compute_row row d).assets = some a →
      ((RC.compute_row row d).assetcheck_ok = true ↔
        (RC.compute_row row d).assetcheck = a)) ∧
    ((RC.compute_row assetsOnlyRow ⟨2010, 6, 30⟩).assets = some 7 ∧
      (RC.compute_row assetsOnlyRow ⟨2010, 6, 30⟩).assetcheck = 0 ∧
      (RC.compute_row assetsOnlyRow ⟨2010, 6, 30⟩).assetcheck_ok = false) := by
  have hck : RC.assetcheck assetsOnlyRow ⟨2010, 6, 30⟩ = 0 := by
    rw [RC.assetcheck, c10_categories]
    simp [sumSkipna]
  refine ⟨?_, ?_, ?_, rfl, hck, ?_⟩
  · intro row d
    rfl
  · intro d
    show RC.assetcheck emptyRow d = 0
    rw [RC.assetcheck, rc_categoryValues_empty]
    simp [sumSkipna]
  · intro row d a h
    have h2 : RC.assets row = some a := h
    show RC.assetcheck_okP (some (RC.assetcheck row d)) (RC.assets row) = true ↔
      RC.assetcheck row d = a
    rw [h2]
    simp [RC.assetcheck_okP]
  · show RC.assetcheck_okP (some (RC.assetcheck assetsOnlyRow ⟨2010, 6, 30⟩))
      (RC.assets assetsOnlyRow) = false
    rw [hck]
    decide

/-- **C10** witness: the evaluated-iff-total-present equivalence at the
row whose only present cell is total assets 7, at 2010-06-30. -/
theorem C10_witness :
    (RC.compute_row assetsOnlyRow ⟨2010, 6, 30⟩).assetcheck_ok = true ↔
      (RC.compute_row assetsOnlyRow ⟨2010, 6, 30⟩).assetcheck = 7 :=
  C10_theorem.2.2.1 assetsOnlyRow ⟨2010, 6, 30⟩ 7 rfl

/-! ## C6: per-quarter failure containment -/

/-- **C6** (counterexample). The claim asserts that no exception raised
while processing one quarter propagates past that quarter and that the
run continues.  In `build_full_panel.py` the `pd.read_csv` call is not
guarded: with a quarter whose file raises a parse error followed by a
perfectly good quarter, the run aborts and the good quarter (which alone
would have contributed a row) contributes nothing. -/
theorem C6_counterexample :
    FP.main [FP.QInput.parse_failure, fpGoodQ ⟨2001, 3, 31⟩] = Except.error () ∧
      FP.main [fpGoodQ ⟨2001, 3, 31⟩] =
        Except.ok [FP.Out.mk ⟨2001, 3, 31⟩ 5 (FP.assetcheck fpGoodRow ⟨2001, 3, 31⟩)
          (FP.assetcheck fpGoodRow ⟨2001, 3, 31⟩ - 5)
          (FP.pass_flag (FP.assetcheck fpGoodRow ⟨2001, 3, 31⟩) 5)] :=
  ⟨rfl, rfl⟩

/-- **C6** (amended). In `build_rc_assets_panel.py` every per-quarter
failure (missing directory, missing Schedule RC file, parse failure,
missing institution-id column) is contained: the quarter is recorded with
a status flag, contributes zero rows, and the loop always records one
status per requested quarter; in `build_full_panel.py` a missing file, an
unparseable file-name date or a missing `IDRSSD` column merely skip the
quarter (without a recorded status flag), but a file parse error is
uncaught and aborts the run. -/
theorem C6_amended :
    (∀ qs : List (RC.QInput × Date), (RC.main qs).1.length = qs.length) ∧
    (∀ d : Date,
      RC.quarter_step RC.QInput.no_quarter_dir d = (RC.Status.no_quarter_dir, []) ∧
      RC.quarter_step RC.QInput.no_schedule_rc d = (RC.Status.no_schedule_rc, []) ∧
      RC.quarter_step RC.QInput.parse_failure d = (RC.Status.parse_error, [])) ∧
    (∀ (cols : List String) (rows : List Row) (d : Date), "idrssd" ∉ cols →
      RC.quarter_step (RC.QInput.parsed cols rows) d = (RC.Status.compute_error, [])) ∧
    (FP.process_quarter FP.QInput.no_rc_file = Except.ok none ∧
      FP.process_quarter FP.QInput.bad_filename_date = Except.ok none ∧
      FP.process_quarter FP.QInput.parse_failure = Except.error ()) ∧
    (∀ (cols : List String) (rows : List Row) (d : Date), "IDRSSD" ∉ cols →
      FP.process_quarter (FP.QInput.parsed cols rows d) = Except.ok none) := by
  refine ⟨?_, fun d => ⟨rfl, rfl, rfl⟩, ?_, ⟨rfl, rfl, rfl⟩, ?_⟩
  · intro qs
    induction qs with
    | nil => rfl
    | cons q rest ih =>
        obtain ⟨p, d⟩ := q
        simp [RC.main, ih]
  · intro cols rows d h
    simp [RC.quarter_step, RC.compute_items_for_quarter, h]
  · intro cols rows d h
    simp [FP.process_quarter, h]

/-- **C6** witness: the missing-institution-column behavior of both
scripts at a concrete one-column table. -/
theorem C6_witness :
    RC.quarter_step (RC.QInput.parsed ["date"] []) ⟨2001, 3, 31⟩
        = (RC.Status.compute_error, []) ∧
      FP.process_quarter (FP.QInput.parsed ["date"] [] ⟨2001, 3, 31⟩) = Except.ok none :=
  ⟨C6_amended.2.2.1 ["date"] [] ⟨2001, 3, 31⟩ (by decide),
   C6_amended.2.2.2.2 ["date"] [] ⟨2001, 3, 31⟩ (by decide)⟩

/-! ## C8: quarter ordering in the assembled panel -/

lemma insertByQdir_subset (x : Date × FP.QInput) :
    ∀ (l : List (Date × FP.QInput)) (y : Date × FP.QInput),
      y ∈ FP.insertByQdir x l → y = x ∨ y ∈ l := by
  intro l
  induction l with
  | nil =>
      intro y hy
      simp only [FP.insertByQdir, List.mem_singleton] at hy
      exact Or.inl hy
  | cons z zs ih =>
      intro y hy
      simp only [FP.insertByQdir] at hy
      split_ifs at hy with hc
      · rcases List.mem_cons.mp hy with h | h
        · exact Or.inl h
        · exact Or.inr h
      · rcases List.mem_cons.mp hy with h | h
        · exact Or.inr (h ▸ List.mem_cons_self z zs)
        · rcases ih y h with h2 | h2
          · exact Or.inl h2
          · exact Or.inr (List.mem_cons_of_mem z h2)

lemma insertByQdir_pairwise (x : Date × FP.QInput) (l : List (Date × FP.QInput))
    (h : l.Pairwise (fun a b => qdirNum a.1 ≤ qdirNum b.1)) :
    (FP.insertByQdir x l).Pairwise (fun a b => qdirNum a.1 ≤ qdirNum b.1) := by
  induction l with
  | nil => simp [FP.insertByQdir]
  | cons z zs ih =>
      rcases List.pairwise_cons.mp h with ⟨hz, hzs⟩
      simp only [FP.insertByQdir]
      split_ifs with hc
      · refine List.pairwise_cons.mpr ⟨?_, h⟩
        intro y hy
        rcases List.mem_cons.mp hy with rfl | h2
        · exact hc
        · exact le_trans hc (hz y h2)
      · refine List.pairwise_cons.mpr ⟨?_, ih hzs⟩
        intro y hy
        rcases insertByQdir_subset x zs y hy with rfl | h2
        · exact le_of_not_le hc
        · exact hz y h2

lemma quarterEndOfIndex_key_lt {i j : ℕ} (h : i < j) :
    (RC.quarterEndOfIndex i).key < (RC.quarterEndOfIndex j).key := by
  have hi4 : i % 4 = 0 ∨ i % 4 = 1 ∨ i % 4 = 2 ∨ i % 4 = 3 := by omega
  have hj4 : j % 4 = 0 ∨ j % 4 = 1 ∨ j % 4 = 2 ∨ j % 4 = 3 := by omega
  rcases hi4 with hi | hi | hi | hi <;> rcases hj4 with hj | hj | hj | hj <;>
    simp [RC.quarterEndOfIndex, hi, hj, Date.key] <;> omega

/-- **C8** (counterexample). The claim asserts panel rows appear in
ascending reporting-date order.  `build_full_panel.main` processes the
quarter directories in sorted order of their `MMDDYY` names, which puts
month and day before the year: given quarters 2001-06-30 (`063001`) and
2002-03-31 (`033102`), the panel holds the 2002Q1 row **before** the
2001Q2 row although its date is later. -/
theorem C8_counterexample :
    FP.run [(⟨2001, 6, 30⟩, fpGoodQ ⟨2001, 6, 30⟩), (⟨2002, 3, 31⟩, fpGoodQ ⟨2002, 3, 31⟩)]
        = Except.ok
          [FP.Out.mk ⟨2002, 3, 31⟩ 5 (FP.assetcheck fpGoodRow ⟨2002, 3, 31⟩)
            (FP.assetcheck fpGoodRow ⟨2002, 3, 31⟩ - 5)
            (FP.pass_flag (FP.assetcheck fpGoodRow ⟨2002, 3, 31⟩) 5),
           FP.Out.mk ⟨2001, 6, 30⟩ 5 (FP.assetcheck fpGoodRow ⟨2001, 6, 30⟩)
            (FP.assetcheck fpGoodRow ⟨2001, 6, 30⟩ - 5)
            (FP.pass_flag (FP.assetcheck fpGoodRow ⟨2001, 6, 30⟩) 5)] ∧
      Date.key ⟨2001, 6, 30⟩ < Date.key ⟨2002, 3, 31⟩ := by
  exact ⟨rfl, by decide⟩

/-- **C8** (amended). `build_rc_assets_panel` appends quarters in strictly
ascending reporting-date order (its quarter grid is sorted by date, and
the panel is the in-order concatenation of the per-quarter row blocks);
`build_full_panel` instead appends quarter directories in lexicographic
order of their `MMDDYY` names, an order that sorts month and day before
year and therefore does not respect chronology across years. -/
theorem C8_amended :
    (∀ start stop : Date,
      (RC.quarter_ends start stop).Pairwise (fun a b => a.key < b.key)) ∧
    (∀ qs : List (RC.QInput × Date),
      (RC.main qs).2 = (qs.map (fun p => (RC.quarter_step p.1 p.2).2)).flatten) ∧
    (∀ dirs : List (Date × FP.QInput),
      (FP.sortByQdir dirs).Pairwise (fun a b => qdirNum a.1 ≤ qdirNum b.1)) := by
  refine ⟨?_, ?_, ?_⟩
  · intro start stop
    unfold RC.quarter_ends
    refine List.Pairwise.filter _ ?_
    refine (List.pairwise_map).mpr ?_
    exact (List.pairwise_lt_range 1200).imp (fun h => quarterEndOfIndex_key_lt h)
  · intro qs
    induction qs with
    | nil => rfl
    | cons q rest ih =>
        obtain ⟨p, d⟩ := q
        simp [RC.main, ih]
  · intro dirs
    induction dirs with
    | nil => simp [FP.sortByQdir]
    | cons x xs ih =>
        exact insertByQdir_pairwise x (FP.sortByQdir xs) ih

/-! ## C9: the missing-field log -/

/-- **C9** (confirmed). For a processed quarter with (normalized) table
columns `cols`, the per-quarter missing-field log contains exactly one
entry for each declared mnemonic absent from `cols`, and no entry for a
mnemonic whose column is in `cols` — the computation never looks at row
contents, so a column that exists but is blank in every row produces no
entry. -/
theorem C9_theorem :
    ∀ (cols : List String) (c : String),
      (RC.missingLog cols).count c = if c ∈ RC.needed ∧ c ∉ cols then 1 else 0 := by
  intro cols c
  have hmem : c ∈ RC.missingLog cols ↔ c ∈ RC.needed ∧ c ∉ cols := by
    simp [RC.missingLog, RC.missing_cols, List.mem_dedup, List.mem_filter]
  by_cases h : c ∈ RC.needed ∧ c ∉ cols
  · rw [if_pos h]
    exact List.count_eq_one_of_mem (List.nodup_dedup _) (hmem.mpr h)
  · rw [if_neg h]
    exact List.count_eq_zero_of_not_mem (fun hc => h (hmem.mp hc))
